import Mathlib

/-!
Shallow embedding of the wallet/contract session layer of the EducredChain
repository (`src/services/contractService.ts`): the error model, the input
validators, the contract session manager (`initContract`, `getContract`,
`onWalletChange`), the transaction tracker (`trackTransaction`) and the
credential operations (`mintCredential`, `getCredential`, `revokeCredential`,
`getTokensByOwner`).  JavaScript numbers are modelled as rationals, thrown
values as an explicit error type, the wallet extension and the chain as
explicit environment records, and the module-level mutable state as explicit
state passing.
-/

/-- The dynamic class of a thrown JavaScript value, as far as the service
distinguishes it: a `ValidationError`, a `ContractError` (both subclasses of
the repository's `AppError`, hence of `Error`), a plain `Error`, or a thrown
value that is not an `Error` at all. -/
inductive ErrKind where
  | appValidation
  | appContract
  | plainError
  | nonError
deriving Repr, DecidableEq

/-- A thrown JavaScript value: its class, its `message` (empty when the value
is not an `Error`), and its optional numeric `code` property. -/
structure JsError where
  kind : ErrKind
  message : String
  code : Option Int := none
deriving Repr, DecidableEq

/-- `new ValidationError(msg)`. -/
def mkValidationError (msg : String) : JsError :=
  { kind := ErrKind.appValidation, message := msg }

/-- `new ContractError(msg, method)`: the `ContractError` constructor prefixes
the message with the failing operation, producing
`Contract operation failed (method): msg`. -/
def mkContractError (msg : String) (method : String) : JsError :=
  { kind := ErrKind.appContract
    message := "Contract operation failed (" ++ method ++ "): " ++ msg }

/-- Modelled from the spec: the helper `toAppError` lives in the repository's
`src/utils/errors` module, which is absent from the sources (only its import
and call sites appear).  Per the spec's error-handling design, a typed
application error is surfaced with its own message, a plain `Error` is wrapped
carrying its message as the underlying cause, and an unrecognized thrown value
falls back to the caller-supplied generic message.  Only the resulting
message is observable in the claims, so the model returns it. -/
def toAppErrorMsg (e : JsError) (fallback : String) : String :=
  match e.kind with
  | ErrKind.appValidation => e.message
  | ErrKind.appContract => e.message
  | ErrKind.plainError => e.message
  | ErrKind.nonError => fallback

/-- `listStartsWith pat l`: `pat` is an initial segment of `l`. -/
def listStartsWith : List Char → List Char → Bool
  | [], _ => true
  | _ :: _, [] => false
  | p :: ps, c :: cs => p = c && listStartsWith ps cs

/-- `listHasSub pat l`: `pat` occurs contiguously somewhere in `l`. -/
def listHasSub (pat : List Char) : List Char → Bool
  | [] => listStartsWith pat []
  | c :: cs => listStartsWith pat (c :: cs) || listHasSub pat cs

/-- Substring test, modelling JavaScript's `String.prototype.includes`. -/
def strContains (s pat : String) : Bool :=
  listHasSub pat.toList s.toList

/-- JavaScript's `Number.isInteger` on a (finite) number modelled as a
rational: true exactly when the denominator is 1. -/
def numIsInteger (q : ℚ) : Bool :=
  q.den = 1

/-- `Number.MAX_SAFE_INTEGER = 2^53 - 1`. -/
def MAX_SAFE_INTEGER : ℚ := 2 ^ 53 - 1

/-- `validateTokenId(tokenId)`: rejects a non-integer or negative number with
`ValidationError('Token ID must be a non-negative integer')`, then a number
above `Number.MAX_SAFE_INTEGER` with `ValidationError('Token ID is too
large')`. -/
def validateTokenId (tokenId : ℚ) : Except JsError Unit :=
  if ¬ numIsInteger tokenId ∨ tokenId < 0 then
    Except.error (mkValidationError "Token ID must be a non-negative integer")
  else if tokenId > MAX_SAFE_INTEGER then
    Except.error (mkValidationError "Token ID is too large")
  else
    Except.ok ()

/-- ASCII whitespace, as stripped by `String.prototype.trim` (the model
covers the ASCII subset of the whitespace set). -/
def isJsSpace (c : Char) : Bool :=
  (c = ' ' ∨ c = '\t' ∨ c = '\n' ∨ c = '\r' ∨ c = '\x0b' ∨ c = '\x0c')

/-- `String.prototype.trim`: strips leading and trailing whitespace. -/
def jsTrim (s : String) : String :=
  String.mk (((s.toList.dropWhile isJsSpace).reverse.dropWhile isJsSpace).reverse)

/-- `String.prototype.toLowerCase` on the ASCII range. -/
def charToLower (c : Char) : Char :=
  if 'A' ≤ c ∧ c ≤ 'Z' then Char.ofNat (c.toNat + 32) else c

/-- Lowercasing a string, as `initContract` and the account-change handler do
with account addresses. -/
def jsToLower (s : String) : String :=
  String.mk (s.toList.map charToLower)

/-- `validateNonEmptyString(value, fieldName)`: the model covers the string
case (`value` is typed `string`), so the first guard reduces to the emptiness
of `value`; then a whitespace-only string and a string longer than 500
characters are rejected. -/
def validateNonEmptyString (value : String) (fieldName : String) : Except JsError Unit :=
  if value = "" then
    Except.error (mkValidationError (fieldName ++ " is required and must be a string"))
  else if (jsTrim value).length = 0 then
    Except.error (mkValidationError (fieldName ++ " cannot be empty"))
  else if value.length > 500 then
    Except.error (mkValidationError (fieldName ++ " cannot exceed 500 characters"))
  else
    Except.ok ()

/-- One character of a base58btc alphabet, as in the `Qm` content-hash
pattern `[1-9A-HJ-NP-Za-km-z]`. -/
def isBase58Char (c : Char) : Bool :=
  (('1' ≤ c ∧ c ≤ '9') ∨ ('A' ≤ c ∧ c ≤ 'H') ∨ ('J' ≤ c ∧ c ≤ 'N') ∨
   ('P' ≤ c ∧ c ≤ 'Z') ∨ ('a' ≤ c ∧ c ≤ 'k') ∨ ('m' ≤ c ∧ c ≤ 'z'))

/-- One character of the `b...` content-hash pattern `[A-Za-z2-7]`. -/
def isBase32Char (c : Char) : Bool :=
  (('A' ≤ c ∧ c ≤ 'Z') ∨ ('a' ≤ c ∧ c ≤ 'z') ∨ ('2' ≤ c ∧ c ≤ '7'))

/-- The anchored regex `^(Qm[1-9A-HJ-NP-Za-km-z]{44}|b[A-Za-z2-7]{58})$` of
`validateIpfsHash`. -/
def ipfsHashMatches (s : String) : Bool :=
  (match s.toList with
   | 'Q' :: 'm' :: rest => rest.length = 44 ∧ rest.all isBase58Char
   | 'b' :: rest => rest.length = 58 ∧ rest.all isBase32Char
   | _ => false)

/-- `validateIpfsHash(ipfsHash)` for a string argument: empty strings fail the
truthiness guard, then the content-hash regex is applied. -/
def validateIpfsHash (ipfsHash : String) : Except JsError Unit :=
  if ipfsHash = "" then
    Except.error (mkValidationError "IPFS hash is required and must be a string")
  else if ¬ ipfsHashMatches ipfsHash then
    Except.error (mkValidationError "Invalid IPFS hash format")
  else
    Except.ok ()

/-- `validateAddress(address, fieldName)` for a string argument; the
syntactic address check delegates to the external `ethers.utils.isAddress`,
supplied here as the parameter `isAddr`. -/
def validateAddress (isAddr : String → Bool) (address : String) (fieldName : String) :
    Except JsError Unit :=
  if address = "" then
    Except.error (mkValidationError (fieldName ++ " is required and must be a string"))
  else if ¬ isAddr address then
    Except.error (mkValidationError ("Invalid " ++ fieldName ++ ": " ++ address))
  else
    Except.ok ()

/-- The module-level session singleton of the contract service: the cached
`contract`, `provider` and `signer` handles and the lowercased
`currentAccount`.  Handles are modelled by identity: each construction of a
provider, signer or contract object allocates a fresh identifier from
`nextId`, so identifier equality is reference equality. -/
structure SessionState where
  contract : Option Nat
  provider : Option Nat
  signer : Option Nat
  currentAccount : Option String
  nextId : Nat
deriving Repr, DecidableEq

/-- The state of the freshly loaded module: every handle is `null`. -/
def initialSession : SessionState :=
  { contract := none, provider := none, signer := none, currentAccount := none, nextId := 0 }

/-- `clearContractState()`: resets `contract`, `signer` and `currentAccount`
to null.  The `provider` field is not touched by this function. -/
def clearContractState (s : SessionState) : SessionState :=
  { s with contract := none, signer := none, currentAccount := none }

/-- `getContractAddress()`: reads the configured contract address
(`VITE_CONTRACT_ADDRESS`), trims it, and fails with a `ValidationError` when
it is absent or blank. -/
def getContractAddress (configured : Option String) : Except JsError String :=
  match configured with
  | none => Except.error (mkValidationError
      "Contract address is not configured. Please set VITE_CONTRACT_ADDRESS in your .env file.")
  | some raw =>
    let address := jsTrim raw
    if address = "" then
      Except.error (mkValidationError
        "Contract address is not configured. Please set VITE_CONTRACT_ADDRESS in your .env file.")
    else Except.ok address

/-- The environment one `initContract` run observes: whether `window.ethereum`
exists, the outcome of the `eth_requestAccounts` request, and the configured
contract address. -/
structure InitEnv where
  ethereumPresent : Bool
  requestAccounts : Except JsError (List String)
  contractAddress : Option String

/-- The observable outcome of one `initContract` run: the returned contract
handle or the thrown error, the session state after the run, whether an
account-access request was issued to the wallet extension, and whether
`notifyWalletChange` fired during the run. -/
structure InitResult where
  result : Except JsError Nat
  state : SessionState
  requested : Bool
  notified : Bool

/-- The `catch` block of `initContract`: clears the session state, then maps
the wallet error codes 4001, -32002 and -32603 to their normalized
`ContractError` messages and wraps every other cause into a generic
`ContractError` carrying the cause's message (via `toAppError`). -/
def initCatch (e : JsError) (requested : Bool) (s : SessionState) : InitResult :=
  let s1 := clearContractState s
  let appErrMsg := toAppErrorMsg e "Failed to initialize contract"
  let err :=
    if e.code = some 4001 then
      mkContractError "User denied account access" "initContract"
    else if e.code = some (-32002) then
      mkContractError "Request already pending. Please check your wallet." "initContract"
    else if e.code = some (-32603) then
      mkContractError "Internal JSON-RPC error" "initContract"
    else
      mkContractError appErrMsg "initContract"
  { result := Except.error err, state := s1, requested := requested, notified := false }

/-- The tail of `initContract`'s `try` block once at least one account came
back: lowercase the first account; when it differs from `currentAccount` or a
reconnect is forced, rebuild provider, signer, `currentAccount` and contract
(notifying listeners), and otherwise fall through to the cached-contract
check (`if (!contract) throw ...; return contract`). -/
def initAccountsCase (env : InitEnv) (forceReconnect : Bool) (s : SessionState) (a : String) :
    InitResult :=
  let newAccount := jsToLower a
  if some newAccount ≠ s.currentAccount ∨ forceReconnect then
    match getContractAddress env.contractAddress with
    | Except.error e => initCatch e true s
    | Except.ok _addr =>
      let s1 : SessionState :=
        { provider := some s.nextId, signer := some (s.nextId + 1),
          currentAccount := some newAccount, contract := some (s.nextId + 2),
          nextId := s.nextId + 3 }
      { result := Except.ok (s.nextId + 2), state := s1, requested := true, notified := true }
  else
    match s.contract with
    | some c => { result := Except.ok c, state := s, requested := true, notified := false }
    | none =>
      initCatch (mkContractError "Failed to initialize contract" "initContract") true s

/-- The body of `initContract` past the early-return guard: the missing
wallet-extension check, then the `try` block (account-access request, account
comparison, provider/signer/contract rebuild with a wallet-change
notification) and its `catch`. -/
def initContractConnect (env : InitEnv) (forceReconnect : Bool) (s : SessionState) : InitResult :=
  if ¬ env.ethereumPresent then
    { result := Except.error (mkValidationError
        "MetaMask is not installed. Please install MetaMask to continue.")
      state := clearContractState s, requested := false, notified := false }
  else
    match env.requestAccounts with
    | Except.error e => initCatch e true s
    | Except.ok accounts =>
      match accounts with
      | [] => initCatch (mkValidationError "No accounts found. Please connect your wallet.") true s
      | a :: _ => initAccountsCase env forceReconnect s a

/-- `initContract(forceReconnect)`: returns the cached contract handle when
both `contract` and `signer` are set and no reconnect is forced, and otherwise
runs the connection logic of `initContractConnect`. -/
def initContract (env : InitEnv) (forceReconnect : Bool) (s : SessionState) : InitResult :=
  match s.contract, s.signer, forceReconnect with
  | some c, some _sg, false => { result := Except.ok c, state := s, requested := false, notified := false }
  | _, _, _ => initContractConnect env forceReconnect s

/-- `getContract()`: the cached handle, or a `ContractError` when the session
is disconnected. -/
def getContract (s : SessionState) : Except JsError Nat :=
  match s.contract with
  | none => Except.error (mkContractError
      "Contract not initialized. Call initContract() first." "getContract")
  | some c => Except.ok c

/-- The `accountsChanged` handler installed by `onWalletChange`: an empty
account list clears the session state; a first account differing (case
insensitively) from `currentAccount` triggers `initContract(true)`, whose
failures are swallowed; afterwards listeners are notified. -/
def handleAccountsChanged (env : InitEnv) (accounts : List String) (s : SessionState) :
    SessionState :=
  match accounts with
  | [] => clearContractState s
  | a :: _ =>
    if (match s.currentAccount with
        | none => true
        | some cur => jsToLower a ≠ jsToLower cur) then
      (initContract env true s).state
    else s

/-- The `chainChanged` handler reloads the page, which re-initializes the
module state. -/
def handleChainChanged (_s : SessionState) : SessionState := initialSession

/-- One state-mutating operation of the contract session manager.  The read
operations (`getContract`, `getCurrentAccount`, `isWalletConnected`, the
credential calls) leave the session fields unchanged and are omitted. -/
inductive SessionOp where
  | init (env : InitEnv) (force : Bool)
  | accountsChanged (env : InitEnv) (accounts : List String)
  | chainChanged

/-- Effect of one session operation on the session state. -/
def applyOp (s : SessionState) (op : SessionOp) : SessionState :=
  match op with
  | SessionOp.init env force => (initContract env force s).state
  | SessionOp.accountsChanged env accounts => handleAccountsChanged env accounts s
  | SessionOp.chainChanged => handleChainChanged s

/-- The session state after a sequence of operations from module load. -/
def runOps (ops : List SessionOp) : SessionState := ops.foldl applyOp initialSession

/-- The session invariant of the spec's data model: the contract handle is
set exactly when the signing handle is set. -/
def sessionInv (s : SessionState) : Prop := s.contract.isSome ↔ s.signer.isSome

/-- The six-field tuple returned by the chain's
`getCredential(uint256) → (string,string,string,uint256,string,bool)`;
the issue date is epoch seconds. -/
structure CredTuple where
  title : String
  description : String
  issuer : String
  issueDate : Nat
  ipfsHash : String
  isRevoked : Bool
deriving Repr, DecidableEq

/-- The record `getCredential` returns to its caller: the issue date has been
converted to a point in time (`new Date(issueDate.toNumber() * 1000)`),
represented by its epoch milliseconds. -/
structure CredRecord where
  title : String
  description : String
  issuer : String
  issueDateMs : Nat
  ipfsHash : String
  isRevoked : Bool
deriving Repr, DecidableEq

/-- `getCredential(tokenId)`: validates the token id, requires an initialized
contract, then inside `try` reads the six-field tuple from the chain
(supplied by the environment function `chain`), rejects an empty title or
issuer as `ContractError('Credential not found')`, and converts the issue
date; the `catch` normalizes causes mentioning `invalid token ID` or
`nonexistent token` to the same not-found `ContractError` and wraps every
other cause.  The second component records whether a chain read was
attempted. -/
def getCredential (chain : ℚ → Except JsError CredTuple) (s : SessionState) (tokenId : ℚ) :
    Except JsError CredRecord × Bool :=
  match validateTokenId tokenId with
  | Except.error e => (Except.error e, false)
  | Except.ok _ =>
    match getContract s with
    | Except.error e => (Except.error e, false)
    | Except.ok _c =>
      let inner : Except JsError CredRecord :=
        match chain tokenId with
        | Except.error e => Except.error e
        | Except.ok t =>
          if t.title = "" ∨ t.issuer = "" then
            Except.error (mkContractError "Credential not found" "getCredential")
          else
            Except.ok
              { title := t.title, description := t.description, issuer := t.issuer,
                issueDateMs := t.issueDate * 1000, ipfsHash := t.ipfsHash,
                isRevoked := t.isRevoked }
      match inner with
      | Except.ok r => (Except.ok r, true)
      | Except.error e =>
        let msg := toAppErrorMsg e "Failed to get credential"
        if strContains msg "invalid token ID" ∨ strContains msg "nonexistent token" then
          (Except.error (mkContractError "Credential not found" "getCredential"), true)
        else
          (Except.error (mkContractError msg "getCredential"), true)

/-- Status of one tracked transaction. -/
inductive TxStatusKind where
  | pending
  | confirmed
  | failed
deriving Repr, DecidableEq

/-- One entry of the transaction tracker's map, keyed by transaction hash. -/
structure TxStatus where
  hash : String
  status : TxStatusKind
  confirmations : Nat
  gasUsed : Option String := none
  error : Option String := none
  timestamp : Int
deriving Repr, DecidableEq

/-- A transaction receipt as `trackTransaction` consumes it:
`receipt.confirmations` (read with a `|| 0` fallback) and the optional
`receipt.gasUsed`. -/
structure Receipt where
  confirmations : Option Nat
  gasUsed : Option Nat
deriving Repr, DecidableEq

/-- The tracker's `Map` of transaction statuses, as an insertion-ordered
association list. -/
abbrev TxMap := List (String × TxStatus)

/-- `Map.prototype.set`: replaces the entry under an existing key in place,
otherwise appends. -/
def mapSet (m : TxMap) (k : String) (v : TxStatus) : TxMap :=
  if (List.any m fun e => e.1 = k) then
    List.map (fun e => if e.1 = k then (k, v) else e) m
  else
    m ++ [(k, v)]

/-- `Map.prototype.get`, as used by `getTransactionStatus`. -/
def mapGet (m : TxMap) (k : String) : Option TxStatus :=
  Option.map Prod.snd (List.find? (fun e => e.1 = k) m)

/-- The `pending` entry `trackTransaction` creates before awaiting finality,
stamped with the submission-time clock reading. -/
def trackPending (hash : String) (tSubmit : Int) : TxStatus :=
  { hash := hash, status := TxStatusKind.pending, confirmations := 0, timestamp := tSubmit }

/-- The eviction sweep run on confirmation: drops every entry whose timestamp
is older than the cutoff. -/
def sweepOld (m : TxMap) (cutoff : Int) : TxMap :=
  List.filter (fun e => ¬ e.2.timestamp < cutoff) m

/-- `trackTransaction(tx)`: records a `pending` entry under the transaction's
hash, then — according to the settled outcome of `tx.wait()` — updates it to
`confirmed` with the confirmation count and gas used and sweeps entries older
than one hour, or to `failed` with the cause's message (`Unknown error` when
the thrown value is not an `Error`).  `tSubmit` and `tConfirm` are the
`Date.now()` readings at entry creation and at the confirmation sweep; the
function returns the final status and the updated map and never throws. -/
def trackTransaction (hash : String) (waitResult : Except JsError Receipt)
    (tSubmit tConfirm : Int) (m : TxMap) : TxStatus × TxMap :=
  let m1 := mapSet m hash (trackPending hash tSubmit)
  match waitResult with
  | Except.ok receipt =>
    let st1 : TxStatus :=
      { hash := hash, status := TxStatusKind.confirmed,
        confirmations := receipt.confirmations.getD 0,
        gasUsed := Option.map toString receipt.gasUsed, timestamp := tSubmit }
    let m2 := mapSet m1 hash st1
    let oneHourAgo := tConfirm - 60 * 60 * 1000
    (st1, sweepOld m2 oneHourAgo)
  | Except.error e =>
    let st1 : TxStatus :=
      { hash := hash, status := TxStatusKind.failed, confirmations := 0,
        error := some (if e.kind ≠ ErrKind.nonError then e.message else "Unknown error"),
        timestamp := tSubmit }
    (st1, mapSet m1 hash st1)

/-- The sequence of values the `status` field of the tracked entry takes over
one `trackTransaction` run: `pending` at creation, then the final status. -/
def trackStatusHistory (hash : String) (waitResult : Except JsError Receipt)
    (tSubmit tConfirm : Int) (m : TxMap) : List TxStatusKind :=
  [(trackPending hash tSubmit).status,
   (trackTransaction hash waitResult tSubmit tConfirm m).1.status]

/-- The environment one transaction-submitting call (`mintCredential` /
`revokeCredential`) observes: the submission outcome (the submitted
transaction, identified by its hash, or the thrown cause), the settled
outcome of the transaction's `wait()` (both `await tx.wait()` calls observe
the same settled promise), and the `Date.now()` readings at tracking-entry
creation and at the confirmation sweep. -/
structure TxEnv where
  submit : Except JsError String
  waitResult : Except JsError Receipt
  tSubmit : Int
  tConfirm : Int

/-- The `catch` block shared in shape by `mintCredential`: a cause whose
message (via `toAppError`) mentions `user rejected transaction` is normalized,
every other cause is wrapped with method context. -/
def mintCatch (e : JsError) : JsError :=
  let appErrMsg := toAppErrorMsg e "Failed to mint credential"
  if strContains appErrMsg "user rejected transaction" then
    mkContractError "Transaction was rejected by user" "mintCredential"
  else
    mkContractError appErrMsg "mintCredential"

/-- `mintCredential(to, title, description, issuer, ipfsHash)`: validates all
five inputs, requires an initialized contract, submits the mint transaction,
tracks it (`trackTransaction`, which never throws), then awaits finality a
second time and returns the receipt; a failure of submission or finality is
normalized/wrapped by the `catch`.  Returns the outcome and the tracker map
after the call. -/
def mintCredential (isAddr : String → Bool) (env : TxEnv) (s : SessionState) (m : TxMap)
    (toAddr title description issuer ipfsHash : String) :
    Except JsError Receipt × TxMap :=
  match validateAddress isAddr toAddr "Recipient address" with
  | Except.error e => (Except.error e, m)
  | Except.ok _ =>
  match validateNonEmptyString title "Title" with
  | Except.error e => (Except.error e, m)
  | Except.ok _ =>
  match validateNonEmptyString description "Description" with
  | Except.error e => (Except.error e, m)
  | Except.ok _ =>
  match validateNonEmptyString issuer "Issuer" with
  | Except.error e => (Except.error e, m)
  | Except.ok _ =>
  match validateIpfsHash ipfsHash with
  | Except.error e => (Except.error e, m)
  | Except.ok _ =>
  match getContract s with
  | Except.error e => (Except.error e, m)
  | Except.ok _c =>
    match env.submit with
    | Except.error e => (Except.error (mintCatch e), m)
    | Except.ok hash =>
      let tracked := trackTransaction hash env.waitResult env.tSubmit env.tConfirm m
      match env.waitResult with
      | Except.ok receipt => (Except.ok receipt, tracked.2)
      | Except.error e => (Except.error (mintCatch e), tracked.2)

/-- The `catch` block of `revokeCredential`: a cause whose message mentions
`not owner` is normalized to the dedicated owner-only error, every other
cause is wrapped with method context. -/
def revokeCatch (e : JsError) : JsError :=
  let appErrMsg := toAppErrorMsg e "Failed to revoke credential"
  if strContains appErrMsg "not owner" then
    mkContractError "Only the credential owner can revoke it" "revokeCredential"
  else
    mkContractError appErrMsg "revokeCredential"

/-- `revokeCredential(tokenId, reason)`: validates both inputs, requires an
initialized contract, submits the revoke transaction, tracks it, then awaits
finality a second time and returns the receipt; failures are
normalized/wrapped by the `catch`. -/
def revokeCredential (env : TxEnv) (s : SessionState) (m : TxMap)
    (tokenId : ℚ) (reason : String) : Except JsError Receipt × TxMap :=
  match validateTokenId tokenId with
  | Except.error e => (Except.error e, m)
  | Except.ok _ =>
  match validateNonEmptyString reason "Revocation reason" with
  | Except.error e => (Except.error e, m)
  | Except.ok _ =>
  match getContract s with
  | Except.error e => (Except.error e, m)
  | Except.ok _c =>
    match env.submit with
    | Except.error e => (Except.error (revokeCatch e), m)
    | Except.ok hash =>
      let tracked := trackTransaction hash env.waitResult env.tSubmit env.tConfirm m
      match env.waitResult with
      | Except.ok receipt => (Except.ok receipt, tracked.2)
      | Except.error e => (Except.error (revokeCatch e), tracked.2)

/-- The batch loop of `getTokensByOwner`: starting at index `i`, each
iteration covers the indices `[i, min(i + 20, n))` (the `batchSize` is 20)
and the next iteration starts at `i + 20`; iteration stops once `i ≥ n`. -/
def batchGo (n i : Nat) : List (List Nat) :=
  if _h : i < n then
    List.range' i (min (i + 20) n - i) :: batchGo n (i + 20)
  else []
termination_by n - i
decreasing_by omega

/-- The index batches `getTokensByOwner` dispatches for a reported balance of
`n`, in dispatch order. -/
def batchIndexRanges (n : Nat) : List (List Nat) := batchGo n 0

/-- `getTokensByOwner(owner)`: validates the owner address, requires an
initialized contract, reads the owned-token count `balanceOf(owner)`, then
resolves `tokenOfOwnerByIndex(owner, j)` for each index batch in sequence
(the within-batch lookups are dispatched together and reassembled in index
order by `Promise.all`) and concatenates the batch results.  The chain
functions are supplied by the environment and modelled as responding
successfully; the wrap-any-chain-failure `catch` of the source is exercised
by no claim and is not modelled here. -/
def getTokensByOwner (isAddr : String → Bool) (balanceOf : String → Nat)
    (tokenOfOwnerByIndex : String → Nat → Nat) (s : SessionState) (owner : String) :
    Except JsError (List Nat) :=
  match validateAddress isAddr owner "Owner address" with
  | Except.error e => Except.error e
  | Except.ok _ =>
  match getContract s with
  | Except.error e => Except.error e
  | Except.ok _c =>
    let balanceNum := balanceOf owner
    Except.ok (List.flatten (List.map
      (fun batch => List.map (tokenOfOwnerByIndex owner) batch)
      (batchIndexRanges balanceNum)))

/-- The wallet-change notifier's module state: the registered listeners (as
allocated identities, in registration order), whether the wallet extension's
`accountsChanged`/`chainChanged` hooks are currently attached, and how many
times they have been attached so far. -/
structure NotifState where
  listeners : List Nat
  hooksAttached : Bool
  attachCount : Nat
  nextListenerId : Nat
deriving Repr, DecidableEq

/-- Notifier state of the freshly loaded module: no listeners, no hooks. -/
def initialNotif : NotifState :=
  { listeners := [], hooksAttached := false, attachCount := 0, nextListenerId := 0 }

/-- The unsubscribe closure returned by `onWalletChange`: it removes its
listener, and — only when it is the closure returned by the registration that
attached the wallet hooks — it also calls `removeListener` on both hooks. -/
structure Unsubscribe where
  listenerId : Nat
  removesHooks : Bool
deriving Repr, DecidableEq

/-- `onWalletChange(listener)`: pushes the listener; when the list length has
just become 1 it attaches the `accountsChanged` and `chainChanged` hooks and
returns a cleanup that removes the hooks and filters the listener out;
otherwise it returns a cleanup that only filters the listener out. -/
def onWalletChange (s : NotifState) : NotifState × Unsubscribe :=
  let lid := s.nextListenerId
  let listeners := s.listeners ++ [lid]
  if listeners.length = 1 then
    ({ listeners := listeners, hooksAttached := true, attachCount := s.attachCount + 1,
       nextListenerId := lid + 1 },
     { listenerId := lid, removesHooks := true })
  else
    ({ s with listeners := listeners, nextListenerId := lid + 1 },
     { listenerId := lid, removesHooks := false })

/-- Invoking an unsubscribe closure returned by `onWalletChange`. -/
def runUnsubscribe (s : NotifState) (u : Unsubscribe) : NotifState :=
  if u.removesHooks then
    { s with hooksAttached := false,
             listeners := List.filter (fun l => l ≠ u.listenerId) s.listeners }
  else
    { s with listeners := List.filter (fun l => l ≠ u.listenerId) s.listeners }

/-- A sample non-integer JavaScript number (one half), used to evaluate the
validators on a concrete non-integer input. -/
def ratHalf : ℚ := ⟨1, 2, by decide, by decide⟩

/-- C9: for every input value, `validateTokenId` fails with a
`ValidationError` exactly when the value is not an integer, is negative, or
exceeds `Number.MAX_SAFE_INTEGER`; and in `getCredential` this validation
failure occurs before any chain read is attempted (the validation error is
returned unchanged and the chain-read flag stays false, for every chain and
session). -/
theorem c9_validateTokenId_exact (tokenId : ℚ) :
    ((¬ numIsInteger tokenId ∨ tokenId < 0 ∨ tokenId > MAX_SAFE_INTEGER) →
      ∃ e, validateTokenId tokenId = Except.error e ∧ e.kind = ErrKind.appValidation) ∧
    ((numIsInteger tokenId ∧ 0 ≤ tokenId ∧ tokenId ≤ MAX_SAFE_INTEGER) →
      validateTokenId tokenId = Except.ok ()) ∧
    (∀ chain s e, validateTokenId tokenId = Except.error e →
      getCredential chain s tokenId = (Except.error e, false)) := by
  refine ⟨?_, ?_, ?_⟩
  · intro h
    unfold validateTokenId
    by_cases h1 : ¬ numIsInteger tokenId ∨ tokenId < 0
    · rw [if_pos h1]
      exact ⟨_, rfl, rfl⟩
    · have h2 : tokenId > MAX_SAFE_INTEGER := by
        push_neg at h1
        rcases h with h | h | h
        · exact absurd h1.1 h
        · exact absurd h (not_lt.mpr h1.2)
        · exact h
      rw [if_neg h1, if_pos h2]
      exact ⟨_, rfl, rfl⟩
  · rintro ⟨hi, hnn, hle⟩
    unfold validateTokenId
    rw [if_neg, if_neg]
    · exact not_lt.mpr hle
    · push_neg
      exact ⟨hi, hnn⟩
  · intro chain s e he
    unfold getCredential
    rw [he]

/-- Witness for C9: the three parts of `c9_validateTokenId_exact` evaluated
at the concrete inputs 1/2 (non-integer), 3 (valid) and -1 (negative). -/
theorem c9_validateTokenId_exact_witness :
    (∃ e, validateTokenId ratHalf = Except.error e ∧ e.kind = ErrKind.appValidation) ∧
    validateTokenId (3 : ℚ) = Except.ok () ∧
    getCredential (fun _ => Except.error (mkValidationError "boom")) initialSession (-1 : ℚ) =
      (Except.error (mkValidationError "Token ID must be a non-negative integer"), false) := by
  refine ⟨(c9_validateTokenId_exact ratHalf).1 ?_,
    (c9_validateTokenId_exact 3).2.1 ?_,
    (c9_validateTokenId_exact (-1)).2.2 _ _ _ ?_⟩
  · left
    decide
  · refine ⟨by decide, by decide, by norm_num [MAX_SAFE_INTEGER]⟩
  · unfold validateTokenId
    rw [if_pos (Or.inr (by decide : (-1 : ℚ) < 0))]

/-- The batch loop, bounded recursion form: as long as `i < n` one batch of
indices `[i, min (i + 20) n)` is emitted. -/
theorem batchGo_eq (n i : Nat) :
    batchGo n i =
      if i < n then List.range' i (min (i + 20) n - i) :: batchGo n (i + 20) else [] := by
  rw [batchGo]
  by_cases h : i < n <;> simp [h]

/-- Concatenating the batches recovers the contiguous index interval
`[i, n)`. -/
theorem batchGo_flatten (k : Nat) : ∀ n i, n - i ≤ k →
    (batchGo n i).flatten = List.range' i (n - i) := by
  induction k with
  | zero =>
    intro n i h
    have hni : ¬ i < n := by omega
    rw [batchGo_eq, if_neg hni]
    have : n - i = 0 := by omega
    rw [this]
    rfl
  | succ k ih =>
    intro n i h
    by_cases hlt : i < n
    · rw [batchGo_eq, if_pos hlt, List.flatten_cons, ih n (i + 20) (by omega)]
      rcases le_or_lt (i + 20) n with h20 | h20
      · have hmin : min (i + 20) n = i + 20 := by omega
        rw [hmin]
        have harg : i + 1 * (i + 20 - i) = i + 20 := by omega
        calc List.range' i (i + 20 - i) ++ List.range' (i + 20) (n - (i + 20))
            = List.range' i (i + 20 - i) ++ List.range' (i + 1 * (i + 20 - i)) (n - (i + 20)) := by
              rw [harg]
          _ = List.range' i (n - (i + 20) + (i + 20 - i)) := List.range'_append _ _ _ _
          _ = List.range' i (n - i) := by congr 1; omega
      · have hmin : min (i + 20) n = n := by omega
        have hz : n - (i + 20) = 0 := by omega
        rw [hmin, hz]
        simp
    · rw [batchGo_eq, if_neg hlt]
      have : n - i = 0 := by omega
      rw [this]
      rfl

/-- Every batch the loop emits holds at most 20 indices. -/
theorem batchGo_length_le (k : Nat) : ∀ n i, n - i ≤ k →
    ∀ b ∈ batchGo n i, b.length ≤ 20 := by
  induction k with
  | zero =>
    intro n i h b hb
    rw [batchGo_eq, if_neg (by omega : ¬ i < n)] at hb
    simp at hb
  | succ k ih =>
    intro n i h b hb
    by_cases hlt : i < n
    · rw [batchGo_eq, if_pos hlt] at hb
      rcases List.mem_cons.mp hb with hb | hb
      · subst hb
        rw [List.length_range']
        omega
      · exact ih n (i + 20) (by omega) b hb
    · rw [batchGo_eq, if_neg hlt] at hb
      simp at hb

/-- C5: for a connected session and an owner with reported balance `n`,
`getTokensByOwner` dispatches the per-index lookups in consecutive batches of
at most 20 covering the indices in ascending order (for `n = 47`: batch sizes
20, 20, 7), with batches processed in sequence (list order of
`batchIndexRanges`), and returns exactly `n` token identifiers where the
identifier at position `i` is the chain's `tokenOfOwnerByIndex` result for
index `i`. -/
theorem c5_getTokensByOwner_batches (isAddr : String → Bool) (balanceOf : String → Nat)
    (tokenAt : String → Nat → Nat) (s : SessionState) (c : Nat) (owner : String) (n : Nat)
    (hc : s.contract = some c)
    (hv : validateAddress isAddr owner "Owner address" = Except.ok ())
    (hb : balanceOf owner = n) :
    getTokensByOwner isAddr balanceOf tokenAt s owner =
      Except.ok (List.map (tokenAt owner) (List.range n)) ∧
    (List.map (tokenAt owner) (List.range n)).length = n ∧
    (∀ i, i < n → (List.map (tokenAt owner) (List.range n))[i]? = some (tokenAt owner i)) ∧
    (∀ b ∈ batchIndexRanges n, b.length ≤ 20) ∧
    (batchIndexRanges n).flatten = List.range n ∧
    (n = 47 → List.map List.length (batchIndexRanges n) = [20, 20, 7]) := by
  have hflat : (batchIndexRanges n).flatten = List.range n := by
    rw [batchIndexRanges, batchGo_flatten n n 0 (by omega), List.range_eq_range',
      Nat.sub_zero]
  have hmm : ∀ (L : List (List Nat)),
      (List.map (fun batch => List.map (tokenAt owner) batch) L).flatten =
        List.map (tokenAt owner) L.flatten := by
    intro L
    induction L with
    | nil => rfl
    | cons b t ih => simp only [List.map_cons, List.flatten_cons, List.map_append, ih]
  refine ⟨?_, by simp, ?_, ?_, hflat, ?_⟩
  · unfold getTokensByOwner getContract
    rw [hv, hc]
    show Except.ok ((List.map (fun batch => List.map (tokenAt owner) batch)
      (batchIndexRanges (balanceOf owner))).flatten) = _
    rw [hb, hmm, hflat]
  · intro i hi
    rw [List.getElem?_map, List.getElem?_range hi]
    rfl
  · intro b hb
    exact batchGo_length_le n n 0 (by omega) b hb
  · intro h47
    subst h47
    have e1 : batchGo 47 0 = List.range' 0 20 :: batchGo 47 20 := by
      rw [batchGo_eq]
      norm_num
    have e2 : batchGo 47 20 = List.range' 20 20 :: batchGo 47 40 := by
      rw [batchGo_eq]
      norm_num
    have e3 : batchGo 47 40 = List.range' 40 7 :: batchGo 47 60 := by
      rw [batchGo_eq]
      norm_num
    have e4 : batchGo 47 60 = [] := by
      rw [batchGo_eq]
      norm_num
    rw [batchIndexRanges, e1, e2, e3, e4]
    simp [List.length_range']

/-- Witness for C5: a connected session, an always-valid address check and a
balance of 47 produce the 47 identifiers `[100, ..., 146]` in index order,
dispatched in batches of sizes 20, 20 and 7. -/
theorem c5_getTokensByOwner_batches_witness :
    getTokensByOwner (fun _ => true) (fun _ => 47) (fun _ i => i + 100)
      { contract := some 5, provider := none, signer := none, currentAccount := none,
        nextId := 6 } "0xowner" = Except.ok (List.map (fun i => i + 100) (List.range 47)) ∧
    List.map List.length (batchIndexRanges 47) = [20, 20, 7] := by
  have h := c5_getTokensByOwner_batches (fun _ => true) (fun _ => 47) (fun _ i => i + 100)
    { contract := some 5, provider := none, signer := none, currentAccount := none,
      nextId := 6 } 5 "0xowner" 47 rfl rfl rfl
  exact ⟨h.1, h.2.2.2.2.2 rfl⟩

/-- Counterexample to C6 as stated: a finality wait that fails with an
`Error` whose message is empty produces a `failed` entry whose `error` field
is the empty string, so the entry does not carry a non-empty error string. -/
theorem c6_counterexample_empty_error :
    (trackTransaction "0xabc" (Except.error { kind := ErrKind.plainError, message := "" })
      0 0 []).1.status = TxStatusKind.failed ∧
    (trackTransaction "0xabc" (Except.error { kind := ErrKind.plainError, message := "" })
      0 0 []).1.error = some "" := ⟨rfl, rfl⟩

/-- C6 (amended): the tracked entry's status starts at `pending` and moves to
a final status that is never `pending` again; when the finality wait fails,
the status becomes `failed` — never `confirmed` — and the `error` field is
set to the cause's message when the cause is an `Error` (which may be empty)
and to `Unknown error` otherwise. -/
theorem c6_track_monotonic_amended (hash : String) (waitResult : Except JsError Receipt)
    (tSubmit tConfirm : Int) (m : TxMap) :
    trackStatusHistory hash waitResult tSubmit tConfirm m =
      [TxStatusKind.pending, (trackTransaction hash waitResult tSubmit tConfirm m).1.status] ∧
    (trackTransaction hash waitResult tSubmit tConfirm m).1.status ≠ TxStatusKind.pending ∧
    (∀ e, waitResult = Except.error e →
      (trackTransaction hash waitResult tSubmit tConfirm m).1.status = TxStatusKind.failed ∧
      (trackTransaction hash waitResult tSubmit tConfirm m).1.status ≠ TxStatusKind.confirmed ∧
      (trackTransaction hash waitResult tSubmit tConfirm m).1.error =
        some (if e.kind ≠ ErrKind.nonError then e.message else "Unknown error")) := by
  refine ⟨rfl, ?_, ?_⟩
  · unfold trackTransaction
    cases waitResult with
    | ok r => simp
    | error e => simp
  · intro e he
    subst he
    refine ⟨rfl, ?_, rfl⟩
    show TxStatusKind.failed ≠ TxStatusKind.confirmed
    decide

/-- Witness for C6: a wait failing with `Error('reverted')` yields a `failed`,
never-`confirmed` entry carrying the message `reverted`. -/
theorem c6_track_monotonic_amended_witness :
    (trackTransaction "0xdead" (Except.error { kind := ErrKind.plainError, message := "reverted" })
      0 5 []).1.status = TxStatusKind.failed ∧
    (trackTransaction "0xdead" (Except.error { kind := ErrKind.plainError, message := "reverted" })
      0 5 []).1.status ≠ TxStatusKind.confirmed ∧
    (trackTransaction "0xdead" (Except.error { kind := ErrKind.plainError, message := "reverted" })
      0 5 []).1.error = some "reverted" := by
  have h := (c6_track_monotonic_amended "0xdead"
    (Except.error { kind := ErrKind.plainError, message := "reverted" }) 0 5 []).2.2 _ rfl
  exact ⟨h.1, h.2.1, h.2.2⟩

/-- `find?` returns `x` when some element satisfies the predicate and every
element satisfying it equals `x`. -/
theorem find?_uniform {α : Type} (p : α → Bool) (x : α) (l : List α)
    (h1 : ∀ e ∈ l, p e = true → e = x) (h2 : ∃ e ∈ l, p e = true) :
    List.find? p l = some x := by
  induction l with
  | nil => simp at h2
  | cons a t ih =>
    by_cases hp : p a = true
    · have hax : a = x := h1 a (List.mem_cons_self a t) hp
      subst hax
      exact List.find?_cons_of_pos t hp
    · rw [List.find?_cons_of_neg t (by simpa using hp)]
      apply ih
      · intro e he hpe
        exact h1 e (List.mem_cons_of_mem a he) hpe
      · rcases h2 with ⟨e, he, hpe⟩
        rcases List.mem_cons.mp he with rfl | he
        · exact absurd hpe hp
        · exact ⟨e, he, hpe⟩

/-- After `mapSet m k v`, every entry under key `k` is exactly `(k, v)`. -/
theorem mapSet_key_uniform (m : TxMap) (k : String) (v : TxStatus) :
    ∀ e ∈ mapSet m k v, e.1 = k → e = (k, v) := by
  intro e he hk
  unfold mapSet at he
  by_cases h : (List.any m fun e => e.1 = k) = true
  · rw [if_pos h] at he
    rcases List.mem_map.mp he with ⟨e0, _he0, heq⟩
    by_cases h0 : e0.1 = k
    · rw [if_pos h0] at heq
      exact heq.symm
    · rw [if_neg h0] at heq
      exact absurd (heq ▸ hk) h0
  · rw [if_neg h] at he
    rcases List.mem_append.mp he with he | he
    · exact absurd (List.any_eq_true.mpr ⟨e, he, decide_eq_true hk⟩) h
    · simpa using he

/-- After `mapSet m k v`, the entry `(k, v)` is in the map. -/
theorem mapSet_self_mem (m : TxMap) (k : String) (v : TxStatus) :
    (k, v) ∈ mapSet m k v := by
  unfold mapSet
  by_cases h : (List.any m fun e => e.1 = k) = true
  · rw [if_pos h]
    rcases List.any_eq_true.mp h with ⟨e0, he0, hp⟩
    refine List.mem_map.mpr ⟨e0, he0, ?_⟩
    rw [if_pos (of_decide_eq_true hp)]
  · rw [if_neg h]
    simp

/-- Looking up the key just written returns the written status. -/
theorem mapGet_mapSet (m : TxMap) (k : String) (v : TxStatus) :
    mapGet (mapSet m k v) k = some v := by
  unfold mapGet
  rw [find?_uniform (fun e => e.1 = k) (k, v) (mapSet m k v)
    (fun e he hpe => mapSet_key_uniform m k v e he (of_decide_eq_true hpe))
    ⟨(k, v), mapSet_self_mem m k v, decide_eq_true rfl⟩]
  rfl

/-- Looking up the key just written survives the eviction sweep as long as
the written status is not older than the cutoff. -/
theorem mapGet_sweep_mapSet (m : TxMap) (k : String) (v : TxStatus) (cutoff : Int)
    (hv : ¬ v.timestamp < cutoff) :
    mapGet (sweepOld (mapSet m k v) cutoff) k = some v := by
  unfold mapGet sweepOld
  rw [find?_uniform (fun e => e.1 = k) (k, v) _
    (fun e he hpe =>
      mapSet_key_uniform m k v e (List.mem_filter.mp he).1 (of_decide_eq_true hpe))
    ⟨(k, v), List.mem_filter.mpr ⟨mapSet_self_mem m k v, decide_eq_true hv⟩,
      decide_eq_true rfl⟩]
  rfl

/-- Both branches of `mintCredential`'s catch produce a `ContractError`. -/
theorem mintCatch_kind (e : JsError) : (mintCatch e).kind = ErrKind.appContract := by
  have h : mintCatch e =
      if strContains (toAppErrorMsg e "Failed to mint credential")
          "user rejected transaction" = true then
        mkContractError "Transaction was rejected by user" "mintCredential"
      else mkContractError (toAppErrorMsg e "Failed to mint credential") "mintCredential" := rfl
  rw [h]
  split <;> rfl

/-- Both branches of `revokeCredential`'s catch produce a `ContractError`. -/
theorem revokeCatch_kind (e : JsError) : (revokeCatch e).kind = ErrKind.appContract := by
  have h : revokeCatch e =
      if strContains (toAppErrorMsg e "Failed to revoke credential") "not owner" = true then
        mkContractError "Only the credential owner can revoke it" "revokeCredential"
      else mkContractError (toAppErrorMsg e "Failed to revoke credential") "revokeCredential" := rfl
  rw [h]
  split <;> rfl

/-- C10 (amended): for every `mintCredential` or `revokeCredential` run whose
transaction is successfully submitted, the call returns a receipt exactly
when the finality wait succeeded and throws a `ContractError` exactly when it
failed; on failure a tracker entry keyed by the transaction's hash exists
with status `failed`, and on success the `confirmed` entry keyed by the hash
exists provided confirmation happened within one hour of submission
(otherwise the confirmation sweep evicts the entry itself). -/
theorem c10_tracked_entry_amended (isAddr : String → Bool) (env : TxEnv) (s : SessionState)
    (m : TxMap) (toAddr title description issuer ipfsHash reason : String)
    (tokenId : ℚ) (hash : String) (c : Nat)
    (hsub : env.submit = Except.ok hash)
    (hc : s.contract = some c)
    (hm1 : validateAddress isAddr toAddr "Recipient address" = Except.ok ())
    (hm2 : validateNonEmptyString title "Title" = Except.ok ())
    (hm3 : validateNonEmptyString description "Description" = Except.ok ())
    (hm4 : validateNonEmptyString issuer "Issuer" = Except.ok ())
    (hm5 : validateIpfsHash ipfsHash = Except.ok ())
    (hr1 : validateTokenId tokenId = Except.ok ())
    (hr2 : validateNonEmptyString reason "Revocation reason" = Except.ok ()) :
    (∀ receipt, env.waitResult = Except.ok receipt →
      (mintCredential isAddr env s m toAddr title description issuer ipfsHash).1 =
        Except.ok receipt ∧
      (revokeCredential env s m tokenId reason).1 = Except.ok receipt ∧
      (env.tConfirm - env.tSubmit ≤ 3600000 →
        ∃ st, st.status = TxStatusKind.confirmed ∧
          mapGet (mintCredential isAddr env s m toAddr title description issuer ipfsHash).2
            hash = some st ∧
          mapGet (revokeCredential env s m tokenId reason).2 hash = some st)) ∧
    (∀ e, env.waitResult = Except.error e →
      (∃ st, st.status = TxStatusKind.failed ∧
        mapGet (mintCredential isAddr env s m toAddr title description issuer ipfsHash).2
          hash = some st ∧
        mapGet (revokeCredential env s m tokenId reason).2 hash = some st) ∧
      (∃ e2, (mintCredential isAddr env s m toAddr title description issuer ipfsHash).1 =
        Except.error e2 ∧ e2.kind = ErrKind.appContract) ∧
      (∃ e2, (revokeCredential env s m tokenId reason).1 = Except.error e2 ∧
        e2.kind = ErrKind.appContract)) := by
  have hmint : mintCredential isAddr env s m toAddr title description issuer ipfsHash =
      (match env.waitResult with
       | Except.ok receipt =>
         (Except.ok receipt,
          (trackTransaction hash env.waitResult env.tSubmit env.tConfirm m).2)
       | Except.error e =>
         (Except.error (mintCatch e),
          (trackTransaction hash env.waitResult env.tSubmit env.tConfirm m).2)) := by
    unfold mintCredential getContract
    rw [hm1, hm2, hm3, hm4, hm5, hc, hsub]
  have hrev : revokeCredential env s m tokenId reason =
      (match env.waitResult with
       | Except.ok receipt =>
         (Except.ok receipt,
          (trackTransaction hash env.waitResult env.tSubmit env.tConfirm m).2)
       | Except.error e =>
         (Except.error (revokeCatch e),
          (trackTransaction hash env.waitResult env.tSubmit env.tConfirm m).2)) := by
    unfold revokeCredential getContract
    rw [hr1, hr2, hc, hsub]
  refine ⟨?_, ?_⟩
  · intro receipt hw
    refine ⟨by rw [hmint, hw], by rw [hrev, hw], ?_⟩
    intro htime
    refine ⟨{ hash := hash, status := TxStatusKind.confirmed,
              confirmations := receipt.confirmations.getD 0,
              gasUsed := Option.map toString receipt.gasUsed,
              timestamp := env.tSubmit }, rfl, ?_, ?_⟩
    · rw [hmint, hw]
      exact mapGet_sweep_mapSet (mapSet m hash (trackPending hash env.tSubmit)) hash _
        (env.tConfirm - 60 * 60 * 1000)
        (show ¬ env.tSubmit < env.tConfirm - 60 * 60 * 1000 by omega)
    · rw [hrev, hw]
      exact mapGet_sweep_mapSet (mapSet m hash (trackPending hash env.tSubmit)) hash _
        (env.tConfirm - 60 * 60 * 1000)
        (show ¬ env.tSubmit < env.tConfirm - 60 * 60 * 1000 by omega)
  · intro e hw
    refine ⟨⟨{ hash := hash, status := TxStatusKind.failed, confirmations := 0,
               error := some (if e.kind ≠ ErrKind.nonError then e.message
                 else "Unknown error"),
               timestamp := env.tSubmit }, rfl, ?_, ?_⟩,
            ⟨mintCatch e, by rw [hmint, hw], mintCatch_kind e⟩,
            ⟨revokeCatch e, by rw [hrev, hw], revokeCatch_kind e⟩⟩
    · rw [hmint, hw]
      exact mapGet_mapSet (mapSet m hash (trackPending hash env.tSubmit)) hash _
    · rw [hrev, hw]
      exact mapGet_mapSet (mapSet m hash (trackPending hash env.tSubmit)) hash _

/-- Counterexample to C10 as stated: a successfully submitted mint whose
finality wait succeeds 3600001 ms after submission returns the receipt, yet
the confirmation sweep evicts the transaction's own tracker entry, so no
entry keyed by the hash exists when the call completes (and in particular the
call returns a receipt while no entry has status `confirmed`). -/
theorem c10_counterexample_hour_sweep :
    (mintCredential (fun _ => true)
      { submit := Except.ok "0xh",
        waitResult := Except.ok { confirmations := some 2, gasUsed := some 21000 },
        tSubmit := 0, tConfirm := 3600001 }
      { contract := some 7, provider := some 0, signer := some 1,
        currentAccount := some "0xa", nextId := 8 }
      [] "0xabc" "T" "D" "I" "Qm11111111111111111111111111111111111111111111").1 =
      Except.ok { confirmations := some 2, gasUsed := some 21000 } ∧
    mapGet (mintCredential (fun _ => true)
      { submit := Except.ok "0xh",
        waitResult := Except.ok { confirmations := some 2, gasUsed := some 21000 },
        tSubmit := 0, tConfirm := 3600001 }
      { contract := some 7, provider := some 0, signer := some 1,
        currentAccount := some "0xa", nextId := 8 }
      [] "0xabc" "T" "D" "I" "Qm11111111111111111111111111111111111111111111").2
      "0xh" = none := ⟨rfl, rfl⟩

/-- Witness for C10 (amended): a concrete mint and revoke confirmed 1000 ms
after submission each leave a `confirmed` tracker entry under the hash. -/
theorem c10_tracked_entry_amended_witness :
    ∃ st, st.status = TxStatusKind.confirmed ∧
      mapGet (mintCredential (fun _ => true)
          { submit := Except.ok "0xh",
            waitResult := Except.ok { confirmations := some 2, gasUsed := some 21000 },
            tSubmit := 0, tConfirm := 1000 }
          { contract := some 7, provider := some 0, signer := some 1,
            currentAccount := some "0xa", nextId := 8 }
          [] "0xabc" "T" "D" "I"
          "Qm11111111111111111111111111111111111111111111").2 "0xh" = some st ∧
      mapGet (revokeCredential
          { submit := Except.ok "0xh",
            waitResult := Except.ok { confirmations := some 2, gasUsed := some 21000 },
            tSubmit := 0, tConfirm := 1000 }
          { contract := some 7, provider := some 0, signer := some 1,
            currentAccount := some "0xa", nextId := 8 }
          [] 1 "R").2 "0xh" = some st := by
  have hr1 : validateTokenId (1 : ℚ) = Except.ok () := by
    unfold validateTokenId
    rw [if_neg (by decide), if_neg (by norm_num [MAX_SAFE_INTEGER])]
  have h := (c10_tracked_entry_amended (fun _ => true)
    { submit := Except.ok "0xh",
      waitResult := Except.ok { confirmations := some 2, gasUsed := some 21000 },
      tSubmit := 0, tConfirm := 1000 }
    { contract := some 7, provider := some 0, signer := some 1,
      currentAccount := some "0xa", nextId := 8 }
    [] "0xabc" "T" "D" "I" "Qm11111111111111111111111111111111111111111111" "R"
    1 "0xh" 7 rfl rfl rfl rfl rfl rfl rfl hr1 rfl).1
    { confirmations := some 2, gasUsed := some 21000 } rfl
  exact h.2.2 (by norm_num)

/-- C7: for a connected session and a valid token id, `getCredential` fails
with a `ContractError` whose message indicates `not found` — not a raw chain
error — whenever the returned title or issuer is empty or the chain reports
an invalid/nonexistent token; otherwise it returns the six-field record with
the epoch-seconds issue date converted to epoch milliseconds. -/
theorem c7_getCredential_not_found (chain : ℚ → Except JsError CredTuple) (s : SessionState)
    (c : Nat) (tokenId : ℚ)
    (hc : s.contract = some c)
    (hv : validateTokenId tokenId = Except.ok ()) :
    (∀ t, chain tokenId = Except.ok t → (t.title = "" ∨ t.issuer = "") →
      ∃ e, (getCredential chain s tokenId).1 = Except.error e ∧
        e.kind = ErrKind.appContract ∧ strContains e.message "not found" = true) ∧
    (∀ e0, chain tokenId = Except.error e0 → e0.kind = ErrKind.plainError →
      (strContains e0.message "invalid token ID" = true ∨
       strContains e0.message "nonexistent token" = true) →
      (getCredential chain s tokenId).1 =
        Except.error (mkContractError "Credential not found" "getCredential") ∧
      strContains (mkContractError "Credential not found" "getCredential").message
        "not found" = true) ∧
    (∀ t, chain tokenId = Except.ok t → t.title ≠ "" → t.issuer ≠ "" →
      (getCredential chain s tokenId).1 = Except.ok
        { title := t.title, description := t.description, issuer := t.issuer,
          issueDateMs := t.issueDate * 1000, ipfsHash := t.ipfsHash,
          isRevoked := t.isRevoked }) := by
  refine ⟨?_, ?_, ?_⟩
  · intro t hch ht
    simp only [getCredential, getContract, hv, hc, hch]
    rw [if_pos ht]
    simp only [toAppErrorMsg]
    rw [if_neg (by decide)]
    exact ⟨_, rfl, rfl, by decide⟩
  · intro e0 hch hk hpat
    simp only [getCredential, getContract, hv, hc, hch, toAppErrorMsg, hk]
    rw [if_pos hpat]
    exact ⟨rfl, by decide⟩
  · intro t hch h1 h2
    simp only [getCredential, getContract, hv, hc, hch]
    rw [if_neg (by push_neg; exact ⟨h1, h2⟩)]

/-- Witness for C7: a chain rejecting token 1 with the standard nonexistent
token error yields the normalized not-found `ContractError`. -/
theorem c7_getCredential_not_found_witness :
    (getCredential (fun _ => Except.error
        { kind := ErrKind.plainError,
          message := "ERC721: owner query for nonexistent token" })
      { contract := some 3, provider := some 0, signer := some 1,
        currentAccount := some "0xa", nextId := 4 } 1).1 =
      Except.error (mkContractError "Credential not found" "getCredential") ∧
    strContains (mkContractError "Credential not found" "getCredential").message
      "not found" = true := by
  have hv : validateTokenId (1 : ℚ) = Except.ok () := by
    unfold validateTokenId
    rw [if_neg (by decide), if_neg (by norm_num [MAX_SAFE_INTEGER])]
  exact (c7_getCredential_not_found _ _ 3 1 rfl hv).2.1 _ rfl rfl (Or.inr (by decide))

/-- When the early-return guard does not hold (no cached contract or signer,
or a forced reconnect), `initContract` runs the connection logic. -/
theorem initContract_connect (env : InitEnv) (force : Bool) (s : SessionState)
    (h : s.contract = none ∨ s.signer = none ∨ force = true) :
    initContract env force s = initContractConnect env force s := by
  unfold initContract
  cases hco : s.contract with
  | none => rfl
  | some c =>
    cases hsi : s.signer with
    | none => rfl
    | some sg =>
      cases force with
      | true => rfl
      | false =>
        exfalso
        rcases h with h | h | h
        · rw [hco] at h
          exact Option.noConfusion h
        · rw [hsi] at h
          exact Option.noConfusion h
        · exact Bool.noConfusion h

/-- C1 (amended): for every `initContract` call that reaches the connection
logic, a missing wallet extension fails with a `ValidationError`; an
account-access request returning zero accounts fails with a generic
`ContractError` carrying the `No accounts found` cause (the `ValidationError`
thrown inside the `try` is caught and wrapped, so the surfaced error is a
`ContractError`, not a `ValidationError`); request failures with code 4001,
-32002 or -32603 fail with the corresponding normalized `ContractError`;
every other request failure is wrapped into a generic `ContractError`
carrying the cause's message; and a nonempty account list with a configured
contract address yields the freshly built contract handle. -/
theorem c1_initContract_errors (env : InitEnv) (force : Bool) (s : SessionState)
    (hg : s.contract = none ∨ s.signer = none ∨ force = true) :
    (env.ethereumPresent = false →
      (initContract env force s).result = Except.error (mkValidationError
        "MetaMask is not installed. Please install MetaMask to continue.") ∧
      (mkValidationError
        "MetaMask is not installed. Please install MetaMask to continue.").kind =
        ErrKind.appValidation) ∧
    (env.ethereumPresent = true → env.requestAccounts = Except.ok [] →
      (initContract env force s).result = Except.error (mkContractError
        "No accounts found. Please connect your wallet." "initContract") ∧
      (mkContractError "No accounts found. Please connect your wallet."
        "initContract").kind = ErrKind.appContract) ∧
    (∀ e, env.ethereumPresent = true → env.requestAccounts = Except.error e →
      ((e.code = some 4001 →
        (initContract env force s).result = Except.error
          (mkContractError "User denied account access" "initContract")) ∧
       (e.code = some (-32002) →
        (initContract env force s).result = Except.error
          (mkContractError "Request already pending. Please check your wallet."
            "initContract")) ∧
       (e.code = some (-32603) →
        (initContract env force s).result = Except.error
          (mkContractError "Internal JSON-RPC error" "initContract")) ∧
       (e.code ≠ some 4001 → e.code ≠ some (-32002) → e.code ≠ some (-32603) →
        (initContract env force s).result = Except.error
          (mkContractError (toAppErrorMsg e "Failed to initialize contract")
            "initContract")))) ∧
    (∀ a rest addr, env.ethereumPresent = true →
      env.requestAccounts = Except.ok (a :: rest) →
      getContractAddress env.contractAddress = Except.ok addr →
      (some (jsToLower a) ≠ s.currentAccount ∨ force = true) →
      (initContract env force s).result = Except.ok (s.nextId + 2) ∧
      (initContract env force s).state.contract = some (s.nextId + 2)) := by
  have hcon := initContract_connect env force s hg
  refine ⟨?_, ?_, ?_, ?_⟩
  · intro hp
    rw [hcon]
    unfold initContractConnect
    rw [if_pos (show ¬ env.ethereumPresent = true by rw [hp]; decide)]
    exact ⟨rfl, rfl⟩
  · intro hp hreq
    rw [hcon]
    unfold initContractConnect
    rw [if_neg (show ¬ ¬ env.ethereumPresent = true by rw [hp]; decide), hreq]
    exact ⟨rfl, rfl⟩
  · intro e hp hreq
    rw [hcon]
    unfold initContractConnect
    rw [if_neg (show ¬ ¬ env.ethereumPresent = true by rw [hp]; decide), hreq]
    simp only [initCatch]
    refine ⟨?_, ?_, ?_, ?_⟩
    · intro hcode
      rw [if_pos hcode]
    · intro hcode
      rw [if_neg (show ¬ e.code = some 4001 by rw [hcode]; decide), if_pos hcode]
    · intro hcode
      rw [if_neg (show ¬ e.code = some 4001 by rw [hcode]; decide),
        if_neg (show ¬ e.code = some (-32002) by rw [hcode]; decide), if_pos hcode]
    · intro h1 h2 h3
      rw [if_neg h1, if_neg h2, if_neg h3]
  · intro a rest addr hp hreq haddr hcond
    rw [hcon]
    unfold initContractConnect
    rw [if_neg (show ¬ ¬ env.ethereumPresent = true by rw [hp]; decide)]
    simp only [hreq]
    unfold initAccountsCase
    rw [if_pos hcond, haddr]
    exact ⟨rfl, rfl⟩

/-- `initContract` either takes the early-return branch (cached contract and
signer, no forced reconnect) or runs the connection logic. -/
theorem initContract_cases (env : InitEnv) (force : Bool) (s : SessionState) :
    (∃ c, s.contract = some c ∧ s.signer.isSome = true ∧ force = false ∧
      initContract env force s =
        { result := Except.ok c, state := s, requested := false, notified := false }) ∨
    initContract env force s = initContractConnect env force s := by
  unfold initContract
  cases hco : s.contract with
  | none => right; rfl
  | some c =>
    cases hsi : s.signer with
    | none => right; rfl
    | some sg =>
      cases force with
      | true => right; rfl
      | false => exact Or.inl ⟨c, rfl, rfl, rfl, rfl⟩


/-- The account-case tail exits in one of three shapes: a caught error with
the state cleared, a successful rebuild caching fresh handles, or the cached
contract returned with the state untouched. -/
theorem initAccountsCase_shape (env : InitEnv) (force : Bool) (s : SessionState) (a : String) :
    (∃ e, initAccountsCase env force s a =
      { result := Except.error e, state := clearContractState s,
        requested := true, notified := false }) ∨
    (initAccountsCase env force s a =
      { result := Except.ok (s.nextId + 2),
        state := { contract := some (s.nextId + 2), provider := some s.nextId,
                   signer := some (s.nextId + 1), currentAccount := some (jsToLower a),
                   nextId := s.nextId + 3 },
        requested := true, notified := true }) ∨
    (∃ c0, s.contract = some c0 ∧ initAccountsCase env force s a =
      { result := Except.ok c0, state := s, requested := true, notified := false }) := by
  unfold initAccountsCase
  by_cases hcond : some (jsToLower a) ≠ s.currentAccount ∨ force = true
  · rw [if_pos hcond]
    cases haddr : getContractAddress env.contractAddress with
    | error e => exact Or.inl ⟨_, rfl⟩
    | ok addr => exact Or.inr (Or.inl rfl)
  · rw [if_neg hcond]
    cases hc : s.contract with
    | some c0 => exact Or.inr (Or.inr ⟨c0, rfl, rfl⟩)
    | none => exact Or.inl ⟨_, rfl⟩

/-- Evaluation of the connection logic when the wallet extension is absent. -/
theorem initContractConnect_noEthereum (env : InitEnv) (force : Bool) (s : SessionState)
    (hp : env.ethereumPresent = false) :
    initContractConnect env force s =
      { result := Except.error (mkValidationError
          "MetaMask is not installed. Please install MetaMask to continue.")
        state := clearContractState s, requested := false, notified := false } := by
  unfold initContractConnect
  rw [if_pos (show ¬ env.ethereumPresent = true by rw [hp]; decide)]

/-- Evaluation of the connection logic when the account request rejects. -/
theorem initContractConnect_reqError (env : InitEnv) (force : Bool) (s : SessionState)
    (e : JsError) (hp : env.ethereumPresent = true)
    (hreq : env.requestAccounts = Except.error e) :
    initContractConnect env force s = initCatch e true s := by
  unfold initContractConnect
  rw [if_neg (show ¬ ¬ env.ethereumPresent = true by rw [hp]; decide), hreq]

/-- Evaluation of the connection logic when zero accounts come back. -/
theorem initContractConnect_noAccounts (env : InitEnv) (force : Bool) (s : SessionState)
    (hp : env.ethereumPresent = true) (hreq : env.requestAccounts = Except.ok []) :
    initContractConnect env force s =
      initCatch (mkValidationError "No accounts found. Please connect your wallet.") true s := by
  unfold initContractConnect
  rw [if_neg (show ¬ ¬ env.ethereumPresent = true by rw [hp]; decide), hreq]

/-- Evaluation of the connection logic when at least one account comes back. -/
theorem initContractConnect_accounts (env : InitEnv) (force : Bool) (s : SessionState)
    (a : String) (rest : List String) (hp : env.ethereumPresent = true)
    (hreq : env.requestAccounts = Except.ok (a :: rest)) :
    initContractConnect env force s = initAccountsCase env force s a := by
  unfold initContractConnect
  rw [if_neg (show ¬ ¬ env.ethereumPresent = true by rw [hp]; decide), hreq]

/-- The connection logic exits in one of three shapes: a typed error with the
state cleared, a successful rebuild caching fresh provider, signer, account
and contract (the only exit that notifies), or the cached contract with the
state untouched. -/
theorem initContractConnect_shape (env : InitEnv) (force : Bool) (s : SessionState) :
    (∃ e r, initContractConnect env force s =
      { result := Except.error e, state := clearContractState s,
        requested := r, notified := false }) ∨
    (∃ acct, initContractConnect env force s =
      { result := Except.ok (s.nextId + 2),
        state := { contract := some (s.nextId + 2), provider := some s.nextId,
                   signer := some (s.nextId + 1), currentAccount := some acct,
                   nextId := s.nextId + 3 },
        requested := true, notified := true }) ∨
    (∃ c0, s.contract = some c0 ∧ initContractConnect env force s =
      { result := Except.ok c0, state := s, requested := true, notified := false }) := by
  cases hp : env.ethereumPresent with
  | false =>
    rw [initContractConnect_noEthereum env force s hp]
    exact Or.inl ⟨_, _, rfl⟩
  | true =>
    cases hreq : env.requestAccounts with
    | error e =>
      rw [initContractConnect_reqError env force s e hp hreq]
      exact Or.inl ⟨_, _, rfl⟩
    | ok accounts =>
      cases accounts with
      | nil =>
        rw [initContractConnect_noAccounts env force s hp hreq]
        exact Or.inl ⟨_, _, rfl⟩
      | cons a rest =>
        rw [initContractConnect_accounts env force s a rest hp hreq]
        rcases initAccountsCase_shape env force s a with ⟨e, hsh⟩ | hsh | ⟨c0, hc0, hsh⟩
        · exact Or.inl ⟨e, true, hsh⟩
        · exact Or.inr (Or.inl ⟨jsToLower a, hsh⟩)
        · exact Or.inr (Or.inr ⟨c0, hc0, hsh⟩)

/-- A successful `initContract` run leaves the returned contract handle and a
signer cached in the session state (given the session invariant on entry). -/
theorem initContract_ok_caches (env : InitEnv) (force : Bool) (s : SessionState) (c : Nat)
    (hinv : sessionInv s) (h : (initContract env force s).result = Except.ok c) :
    (initContract env force s).state.contract = some c ∧
    (initContract env force s).state.signer.isSome = true := by
  rcases initContract_cases env force s with ⟨c0, hc0, hs0, _, heq⟩ | heq
  · rw [heq] at h ⊢
    have h2 : c0 = c := Except.ok.inj h
    subst h2
    exact ⟨hc0, hs0⟩
  · rw [heq] at h ⊢
    rcases initContractConnect_shape env force s with ⟨e, r, hsh⟩ | ⟨acct, hsh⟩ |
      ⟨c0, hc0, hsh⟩
    · rw [hsh] at h
      exact absurd (show Except.error e = Except.ok c from h) (by simp)
    · rw [hsh] at h ⊢
      have h2 : s.nextId + 2 = c := Except.ok.inj h
      subst h2
      exact ⟨rfl, rfl⟩
    · rw [hsh] at h ⊢
      have h2 : c0 = c := Except.ok.inj h
      subst h2
      exact ⟨hc0, hinv.mp (by rw [hc0]; rfl)⟩

/-- With a cached contract and signer and no forced reconnect, `initContract`
returns the cached handle immediately: no wallet request, no notification, no
state change. -/
theorem initContract_cached (env : InitEnv) (t : SessionState) (c sg : Nat)
    (hc : t.contract = some c) (hs : t.signer = some sg) :
    initContract env false t =
      { result := Except.ok c, state := t, requested := false, notified := false } := by
  unfold initContract
  rw [hc, hs]

/-- C4: from any session state satisfying the invariant, once a first
`initContract` call has succeeded with handle `c`, a second `initContract`
call without `forceReconnect` — under any wallet environment — returns the
identical handle `c`, issues no account-access request, fires no
notification, and leaves the state unchanged. -/
theorem c4_initContract_idempotent (env1 env2 : InitEnv) (f1 : Bool) (s : SessionState)
    (c : Nat) (hinv : sessionInv s) (h : (initContract env1 f1 s).result = Except.ok c) :
    initContract env2 false (initContract env1 f1 s).state =
      { result := Except.ok c, state := (initContract env1 f1 s).state,
        requested := false, notified := false } := by
  obtain ⟨hc2, hs2⟩ := initContract_ok_caches env1 f1 s c hinv h
  obtain ⟨sg, hsg⟩ := Option.isSome_iff_exists.mp hs2
  exact initContract_cached env2 _ c sg hc2 hsg

/-- Witness for C4: after a successful connect from the fresh module state, a
second call without `forceReconnect` — against a wallet environment whose
account request would reject — still returns handle 2 with no request and no
notification. -/
theorem c4_initContract_idempotent_witness :
    initContract
      { ethereumPresent := true,
        requestAccounts := Except.error { kind := ErrKind.plainError, message := "no prompt" },
        contractAddress := some "0x1" } false
      (initContract
        { ethereumPresent := true, requestAccounts := Except.ok ["0xAb"],
          contractAddress := some "0x1" } false initialSession).state =
      { result := Except.ok 2,
        state := (initContract
          { ethereumPresent := true, requestAccounts := Except.ok ["0xAb"],
            contractAddress := some "0x1" } false initialSession).state,
        requested := false, notified := false } :=
  c4_initContract_idempotent
    { ethereumPresent := true, requestAccounts := Except.ok ["0xAb"],
      contractAddress := some "0x1" }
    { ethereumPresent := true,
      requestAccounts := Except.error { kind := ErrKind.plainError, message := "no prompt" },
      contractAddress := some "0x1" } false initialSession 2 Iff.rfl rfl

/-- After any `initContract` run the state is unchanged, cleared, or fully
rebuilt with contract, signer, provider and account all set. -/
theorem initContract_state_shape (env : InitEnv) (force : Bool) (s : SessionState) :
    (initContract env force s).state = s ∨
    (initContract env force s).state = clearContractState s ∨
    ((initContract env force s).state.contract.isSome = true ∧
     (initContract env force s).state.signer.isSome = true ∧
     (initContract env force s).state.provider.isSome = true ∧
     (initContract env force s).state.currentAccount.isSome = true) := by
  rcases initContract_cases env force s with ⟨c0, _, _, _, heq⟩ | heq
  · rw [heq]
    exact Or.inl rfl
  · rw [heq]
    rcases initContractConnect_shape env force s with ⟨e, r, hsh⟩ | ⟨acct, hsh⟩ |
      ⟨c0, _, hsh⟩
    · rw [hsh]
      exact Or.inr (Or.inl rfl)
    · rw [hsh]
      exact Or.inr (Or.inr ⟨rfl, rfl, rfl, rfl⟩)
    · rw [hsh]
      exact Or.inl rfl

/-- Clearing the session state establishes the invariant. -/
theorem sessionInv_clear (t : SessionState) : sessionInv (clearContractState t) := Iff.rfl

/-- Every `initContract` run preserves the session invariant. -/
theorem sessionInv_initContract (env : InitEnv) (force : Bool) (t : SessionState)
    (h : sessionInv t) : sessionInv (initContract env force t).state := by
  rcases initContract_state_shape env force t with hs | hs | ⟨h1, h2, _, _⟩
  · rw [hs]
    exact h
  · rw [hs]
    exact sessionInv_clear t
  · unfold sessionInv
    rw [h1, h2]

/-- The account-change handler clears the state, reconnects, or leaves the
state unchanged. -/
theorem handleAccountsChanged_shape (env : InitEnv) (accounts : List String)
    (s : SessionState) :
    handleAccountsChanged env accounts s = clearContractState s ∨
    handleAccountsChanged env accounts s = (initContract env true s).state ∨
    handleAccountsChanged env accounts s = s := by
  cases accounts with
  | nil => exact Or.inl rfl
  | cons a rest =>
    simp only [handleAccountsChanged]
    split
    · exact Or.inr (Or.inl rfl)
    · exact Or.inr (Or.inr rfl)

/-- Every session operation preserves the invariant. -/
theorem sessionInv_applyOp (s : SessionState) (op : SessionOp) (h : sessionInv s) :
    sessionInv (applyOp s op) := by
  cases op with
  | init env force => exact sessionInv_initContract env force s h
  | accountsChanged env accounts =>
    show sessionInv (handleAccountsChanged env accounts s)
    rcases handleAccountsChanged_shape env accounts s with hs | hs | hs
    · rw [hs]
      exact sessionInv_clear s
    · rw [hs]
      exact sessionInv_initContract env true s h
    · rw [hs]
      exact h
  | chainChanged => exact Iff.rfl

/-- The invariant holds in every reachable session state. -/
theorem sessionInv_runOps (ops : List SessionOp) : sessionInv (runOps ops) := by
  suffices h : ∀ (l : List SessionOp) (t : SessionState), sessionInv t →
      sessionInv (List.foldl applyOp t l) by
    exact h ops initialSession Iff.rfl
  intro l
  induction l with
  | nil =>
    intro t ht
    exact ht
  | cons op rest ih =>
    intro t ht
    exact ih (applyOp t op) (sessionInv_applyOp t op ht)

/-- `initContract` notifies only at the end of the rebuild block, when
contract, signer, provider and account are all set and mutually consistent. -/
theorem initContract_notified_consistent (env : InitEnv) (force : Bool) (s : SessionState)
    (h : (initContract env force s).notified = true) :
    (initContract env force s).state.contract.isSome = true ∧
    (initContract env force s).state.signer.isSome = true ∧
    (initContract env force s).state.provider.isSome = true ∧
    (initContract env force s).state.currentAccount.isSome = true := by
  rcases initContract_cases env force s with ⟨c0, _, _, _, heq⟩ | heq
  · rw [heq] at h
    exact absurd (show false = true from h) (by decide)
  · rw [heq] at h ⊢
    rcases initContractConnect_shape env force s with ⟨e, r, hsh⟩ | ⟨acct, hsh⟩ |
      ⟨c0, _, hsh⟩
    · rw [hsh] at h
      exact absurd (show false = true from h) (by decide)
    · rw [hsh]
      exact ⟨rfl, rfl, rfl, rfl⟩
    · rw [hsh] at h
      exact absurd (show false = true from h) (by decide)

/-- C8: in every state reachable by any sequence of session-manager
operations, the contract handle is non-null exactly when the signing handle
is; and whenever an `initContract` run fires the wallet-change notification
(the rebuild exit), the state observed by listeners has connection, signing
handle, contract handle and current account all set. -/
theorem c8_session_invariant (ops : List SessionOp) :
    sessionInv (runOps ops) ∧
    (∀ env force s, (initContract env force s).notified = true →
      (initContract env force s).state.contract.isSome = true ∧
      (initContract env force s).state.signer.isSome = true ∧
      (initContract env force s).state.provider.isSome = true ∧
      (initContract env force s).state.currentAccount.isSome = true) :=
  ⟨sessionInv_runOps ops, fun env force s h => initContract_notified_consistent env force s h⟩

/-- Witness for C8: the invariant after a concrete connect-then-disconnect
history, and notification consistency for a concrete rebuilding run. -/
theorem c8_session_invariant_witness :
    sessionInv (runOps [SessionOp.init { ethereumPresent := true, requestAccounts := Except.ok ["0xAb"], contractAddress := some "0x1" } false, SessionOp.accountsChanged { ethereumPresent := true, requestAccounts := Except.ok [], contractAddress := some "0x1" } []]) ∧
    ((initContract { ethereumPresent := true, requestAccounts := Except.ok ["0xAb"], contractAddress := some "0x1" } false initialSession).state.contract.isSome = true ∧
     (initContract { ethereumPresent := true, requestAccounts := Except.ok ["0xAb"], contractAddress := some "0x1" } false initialSession).state.signer.isSome = true ∧
     (initContract { ethereumPresent := true, requestAccounts := Except.ok ["0xAb"], contractAddress := some "0x1" } false initialSession).state.provider.isSome = true ∧
     (initContract { ethereumPresent := true, requestAccounts := Except.ok ["0xAb"], contractAddress := some "0x1" } false initialSession).state.currentAccount.isSome = true) :=
  ⟨(c8_session_invariant [SessionOp.init { ethereumPresent := true, requestAccounts := Except.ok ["0xAb"], contractAddress := some "0x1" } false, SessionOp.accountsChanged { ethereumPresent := true, requestAccounts := Except.ok [], contractAddress := some "0x1" } []]).1,
   (c8_session_invariant []).2 { ethereumPresent := true, requestAccounts := Except.ok ["0xAb"], contractAddress := some "0x1" } false initialSession rfl⟩

/-- Counterexample to C1 as stated: when the account-access request returns
zero accounts, the `ValidationError` thrown inside the `try` block is caught
by `initContract`'s own `catch` and re-wrapped, so the call fails with a
`ContractError` — not with a `ValidationError` as the claim requires. -/
theorem c1_counterexample_no_accounts :
    (initContract { ethereumPresent := true, requestAccounts := Except.ok [], contractAddress := some "0x1" } false initialSession).result =
      Except.error (mkContractError "No accounts found. Please connect your wallet." "initContract") ∧
    (mkContractError "No accounts found. Please connect your wallet." "initContract").kind ≠
      ErrKind.appValidation := ⟨rfl, by decide⟩

/-- Witness for C1 (amended): concrete runs of the missing-extension,
zero-account, user-rejection and successful branches. -/
theorem c1_initContract_errors_witness :
    (initContract { ethereumPresent := false, requestAccounts := Except.ok [], contractAddress := some "0x1" } false initialSession).result =
      Except.error (mkValidationError "MetaMask is not installed. Please install MetaMask to continue.") ∧
    (initContract { ethereumPresent := true, requestAccounts := Except.ok [], contractAddress := some "0x1" } false initialSession).result =
      Except.error (mkContractError "No accounts found. Please connect your wallet." "initContract") ∧
    (initContract { ethereumPresent := true, requestAccounts := Except.error { kind := ErrKind.plainError, message := "User rejected request", code := some 4001 }, contractAddress := some "0x1" } false initialSession).result =
      Except.error (mkContractError "User denied account access" "initContract") ∧
    (initContract { ethereumPresent := true, requestAccounts := Except.ok ["0xAb"], contractAddress := some "0x1" } false initialSession).result =
      Except.ok 2 :=
  ⟨((c1_initContract_errors { ethereumPresent := false, requestAccounts := Except.ok [], contractAddress := some "0x1" } false initialSession (Or.inl rfl)).1 rfl).1,
   ((c1_initContract_errors { ethereumPresent := true, requestAccounts := Except.ok [], contractAddress := some "0x1" } false initialSession (Or.inl rfl)).2.1 rfl rfl).1,
   ((c1_initContract_errors { ethereumPresent := true, requestAccounts := Except.error { kind := ErrKind.plainError, message := "User rejected request", code := some 4001 }, contractAddress := some "0x1" } false initialSession (Or.inl rfl)).2.2.1 _ rfl rfl).1 rfl,
   ((c1_initContract_errors { ethereumPresent := true, requestAccounts := Except.ok ["0xAb"], contractAddress := some "0x1" } false initialSession (Or.inl rfl)).2.2.2 "0xAb" [] "0x1" rfl rfl rfl (Or.inl (by decide))).1⟩

/-- Counterexample to C2 as stated: a failing reconnect (user declines the
prompt, code 4001) from a connected session resets contract, signer and
account, but `clearContractState` never touches `provider`, which keeps its
previous non-null value — so not all four fields are reset to null. -/
theorem c2_counterexample_provider_kept :
    (initContract { ethereumPresent := true, requestAccounts := Except.error { kind := ErrKind.plainError, message := "User rejected request", code := some 4001 }, contractAddress := some "0x1" } true { contract := some 2, provider := some 0, signer := some 1, currentAccount := some "0xa", nextId := 3 }).result =
      Except.error (mkContractError "User denied account access" "initContract") ∧
    (initContract { ethereumPresent := true, requestAccounts := Except.error { kind := ErrKind.plainError, message := "User rejected request", code := some 4001 }, contractAddress := some "0x1" } true { contract := some 2, provider := some 0, signer := some 1, currentAccount := some "0xa", nextId := 3 }).state.provider = some 0 := ⟨rfl, rfl⟩

/-- C2 (amended): for every failing `initContract` run of the three kinds
(wallet extension missing, zero accounts, request rejected — including a user
decline), the session state after the call is `clearContractState` of the
state before it: `contractHandle`, `signingHandle` and `currentAccount` are
reset to null, while `connection` (the provider) keeps its previous value —
in particular it is null exactly when it was null before the call. -/
theorem c2_initContract_failure_clears (env : InitEnv) (force : Bool) (s : SessionState)
    (hg : s.contract = none ∨ s.signer = none ∨ force = true) :
    (env.ethereumPresent = false →
      (initContract env force s).state = clearContractState s) ∧
    (env.ethereumPresent = true → env.requestAccounts = Except.ok [] →
      (initContract env force s).state = clearContractState s) ∧
    (∀ e, env.ethereumPresent = true → env.requestAccounts = Except.error e →
      (initContract env force s).state = clearContractState s) ∧
    ((clearContractState s).contract = none ∧ (clearContractState s).signer = none ∧
     (clearContractState s).currentAccount = none ∧
     (clearContractState s).provider = s.provider) := by
  have hcon := initContract_connect env force s hg
  refine ⟨?_, ?_, ?_, rfl, rfl, rfl, rfl⟩
  · intro hp
    rw [hcon, initContractConnect_noEthereum env force s hp]
  · intro hp hreq
    rw [hcon, initContractConnect_noAccounts env force s hp hreq]
    rfl
  · intro e hp hreq
    rw [hcon, initContractConnect_reqError env force s e hp hreq]
    rfl

/-- Witness for C2 (amended): a declined reconnect from a connected session
clears contract, signer and account but leaves the provider handle. -/
theorem c2_initContract_failure_clears_witness :
    (initContract { ethereumPresent := true, requestAccounts := Except.error { kind := ErrKind.plainError, message := "User rejected request", code := some 4001 }, contractAddress := some "0x1" } true { contract := some 2, provider := some 0, signer := some 1, currentAccount := some "0xa", nextId := 3 }).state =
      clearContractState { contract := some 2, provider := some 0, signer := some 1, currentAccount := some "0xa", nextId := 3 } ∧
    (clearContractState { contract := some 2, provider := some 0, signer := some 1, currentAccount := some "0xa", nextId := 3 }).provider = some 0 :=
  ⟨(c2_initContract_failure_clears { ethereumPresent := true, requestAccounts := Except.error { kind := ErrKind.plainError, message := "User rejected request", code := some 4001 }, contractAddress := some "0x1" } true { contract := some 2, provider := some 0, signer := some 1, currentAccount := some "0xa", nextId := 3 } (Or.inr (Or.inr rfl))).2.2.1 _ rfl rfl,
   (c2_initContract_failure_clears { ethereumPresent := true, requestAccounts := Except.error { kind := ErrKind.plainError, message := "User rejected request", code := some 4001 }, contractAddress := some "0x1" } true { contract := some 2, provider := some 0, signer := some 1, currentAccount := some "0xa", nextId := 3 } (Or.inr (Or.inr rfl))).2.2.2.2.2.2⟩

/-- C3, evaluated on the code: from a fresh module, the wallet hooks are
attached exactly once, on the first registration; but the detach logic lives
only in the unsubscribe closure returned by that first registration.
Invoking the first listener's unsubscribe while the second listener is still
registered detaches the hooks (the claim says they must remain attached),
and invoking the second listener's unsubscribe never detaches them even when
it is the one bringing the listener list to or toward empty. -/
theorem c3_hooks_detach_on_first_unsubscribe :
    ((onWalletChange initialNotif).1.hooksAttached = true ∧
     (onWalletChange initialNotif).1.attachCount = 1 ∧
     (onWalletChange (onWalletChange initialNotif).1).1.attachCount = 1) ∧
    ((runUnsubscribe (onWalletChange (onWalletChange initialNotif).1).1
        (onWalletChange initialNotif).2).hooksAttached = false ∧
     (runUnsubscribe (onWalletChange (onWalletChange initialNotif).1).1
        (onWalletChange initialNotif).2).listeners = [1]) ∧
    ((runUnsubscribe (onWalletChange (onWalletChange initialNotif).1).1
        (onWalletChange (onWalletChange initialNotif).1).2).hooksAttached = true ∧
     (runUnsubscribe (onWalletChange (onWalletChange initialNotif).1).1
        (onWalletChange (onWalletChange initialNotif).1).2).listeners = [0]) := by
  decide
